import Mathlib

/-!
Verification of the text parsers, the coordinate-transform handling and the
anatomy-extraction control flow of the mne-hcp reader module
(`hcp/io/read.py`).  Python string and container operations are embedded as
executable Lean functions over `String`, `List` and `ℚ`; Python exceptions
become values of an explicit error type carried by `Except`.  All
definitions are written with structural recursion and `mkRat`-based
rational arithmetic so that concrete runs reduce inside the kernel.
-/

deriving instance DecidableEq for Except

namespace HcpRead

/-! ## Rational arithmetic via `mkRat`

numpy floats are idealised as exact rationals.  The bundled `Rat`
operations are irreducible by design, so multiplication and addition are
defined through `mkRat` (which does reduce); `qMul_eq`/`qAdd_eq` certify
that they are the true field operations. -/

/-- Exact product of two rationals, via `mkRat`. -/
def qMul (a b : ℚ) : ℚ := mkRat (a.num * b.num) (a.den * b.den)

/-- Exact sum of two rationals, via `mkRat`. -/
def qAdd (a b : ℚ) : ℚ := mkRat (a.num * b.den + b.num * a.den) (a.den * b.den)

theorem qMul_eq (a b : ℚ) : qMul a b = a * b := by
  rw [qMul, Rat.mul_def, Rat.normalize_eq_mkRat]

theorem qAdd_eq (a b : ℚ) : qAdd a b = a + b := (Rat.add_def' a b).symm

/-! ## Python string primitives

Core `String.splitOn`, `String.replace` and `String.split` are defined by
well-founded recursion on byte positions and do not reduce in the kernel,
so the same Python semantics are implemented here on character lists with
structural recursion (the `fuel` argument strictly exceeds the number of
loop steps, so the `fuel = 0` branch is never reached). -/

/-- Characters Python's argument-free `str.split()` treats as whitespace
(restricted to the ASCII whitespace reachable in these files). -/
def pyIsSpace (c : Char) : Bool :=
  c = ' ' || c = '\t' || c = '\n' || c = '\r' || c = '\x0b' || c = '\x0c'

/-- Whether `pat` occurs at the head of `l`. -/
def chStarts : List Char → List Char → Bool
  | [], _ => true
  | _ :: _, [] => false
  | a :: as, b :: bs => a = b && chStarts as bs

/-- Whether `needle` occurs as a contiguous sublist of `hay`:
Python's `needle in hay` on strings. -/
def chSub (needle : List Char) : List Char → Bool
  | [] => chStarts needle []
  | c :: rest => chStarts needle (c :: rest) || chSub needle rest

/-- Python `needle in hay` for strings. -/
def strHasSub (needle hay : String) : Bool :=
  chSub needle.data hay.data

/-- Worker for `pySplit`: Python `str.split(sep)` with a non-empty
separator, scanning left to right without overlap. -/
def chSplitOnGo (sep : List Char) : Nat → List Char → List Char →
    List (List Char)
  | 0, _, acc => [acc.reverse]
  | fuel + 1, l, acc =>
    match l with
    | [] => [acc.reverse]
    | c :: rest =>
      if chStarts sep l then
        acc.reverse :: chSplitOnGo sep fuel (l.drop sep.length) []
      else
        chSplitOnGo sep fuel rest (c :: acc)

/-- Python `s.split(sep)` for a non-empty separator `sep`: every
occurrence is a boundary, empty pieces are kept, and splitting the empty
string gives `[""]`. -/
def pySplit (sep s : String) : List String :=
  (chSplitOnGo sep.data (s.data.length + 1) s.data []).map (fun cs => ⟨cs⟩)

/-- Worker for `pyReplace`: Python `str.replace(pat, rep)`,
left-to-right, non-overlapping. -/
def chReplaceGo (pat rep : List Char) : Nat → List Char → List Char
  | 0, l => l
  | fuel + 1, l =>
    match l with
    | [] => []
    | c :: rest =>
      if chStarts pat l then rep ++ chReplaceGo pat rep fuel (l.drop pat.length)
      else c :: chReplaceGo pat rep fuel rest

/-- Python `s.replace(pat, rep)` for a non-empty pattern. -/
def pyReplace (s pat rep : String) : String :=
  ⟨chReplaceGo pat.data rep.data (s.data.length + 1) s.data⟩

/-- Split at every character satisfying `p`, keeping empty pieces. -/
def chSplitPred (p : Char → Bool) : List Char → List Char → List (List Char)
  | [], acc => [acc.reverse]
  | c :: rest, acc =>
    if p c then acc.reverse :: chSplitPred p rest []
    else chSplitPred p rest (c :: acc)

/-- Python `s.split()`: split on whitespace runs, discarding empty
pieces. -/
def pySplitWs (s : String) : List String :=
  ((chSplitPred pyIsSpace s.data []).map (fun cs => (⟨cs⟩ : String))).filter
    (· ≠ "")

/-- Python `s.lstrip(chars)`: drop leading characters belonging to the
character SET `chars` (not the prefix string `chars`). -/
def pyLstrip (chars : List Char) (s : String) : String :=
  ⟨s.data.dropWhile (fun c => chars.contains c)⟩

/-- Python `s.strip(chars)`: drop characters of the set `chars` from both
ends. -/
def pyStrip (chars : List Char) (s : String) : String :=
  ⟨((s.data.dropWhile (fun c => chars.contains c)).reverse.dropWhile
      (fun c => chars.contains c)).reverse⟩

/-- Python `s.isdigit()` (ASCII): non-empty and all characters digits. -/
def pyIsDigitStr (s : String) : Bool :=
  !s.data.isEmpty && s.data.all Char.isDigit

/-- Python `s.isalnum()` (ASCII): non-empty and all characters
alphanumeric. -/
def pyIsAlnumStr (s : String) : Bool :=
  !s.data.isEmpty && s.data.all Char.isAlphanum

/-- Numeric value of a digit list. -/
def digitsVal (l : List Char) : Nat :=
  l.foldl (fun a c => a * 10 + (c.toNat - '0'.toNat)) 0

/-- Integer value of an all-digit token (`int(ch)` after an `isdigit`
guard). -/
def digitToInt (s : String) : Int :=
  (digitsVal s.data : Int)

/-! ## Python `float` literals (decimal subset)

The transform files only contain decimal literals: optional sign, digits,
optional fractional part. -/

/-- Parse an unsigned decimal literal (`"10"`, `"0.5"`, `"5."`, `".5"`). -/
def parseUFloatQ (l : List Char) : Option ℚ :=
  let ip := l.takeWhile Char.isDigit
  match l.dropWhile Char.isDigit with
  | [] => if l.isEmpty then none else some (mkRat (digitsVal ip) 1)
  | '.' :: fp =>
    if fp.all Char.isDigit && (!ip.isEmpty || !fp.isEmpty) then
      some (qAdd (mkRat (digitsVal ip) 1) (mkRat (digitsVal fp) (10 ^ fp.length)))
    else none
  | _ => none

/-- Python `float(s)` on the decimal literals occurring in these files. -/
def parseFloatQ (s : String) : Option ℚ :=
  match s.data with
  | '-' :: rest => (parseUFloatQ rest).map Neg.neg
  | '+' :: rest => parseUFloatQ rest
  | l => parseUFloatQ l

/-! ## Python `dict` as an association list -/

/-- `d[k] = v`: replace the existing binding of `k`, else append. -/
def dictInsert {α : Type} : List (String × α) → String → α → List (String × α)
  | [], k, v => [(k, v)]
  | (k', v') :: rest, k, v =>
    if k' = k then (k, v) :: rest else (k', v') :: dictInsert rest k v

/-- `d.get(k)` / `d[k]` lookup. -/
def dictFind {α : Type} : List (String × α) → String → Option α
  | [], _ => none
  | (k', v') :: rest, k => if k' = k then some v' else dictFind rest k

/-- In-place update of the value bound to `k` (numpy in-place mutation of
the array stored in a dict). -/
def dictUpdate {α : Type} (d : List (String × α)) (k : String) (f : α → α) :
    List (String × α) :=
  d.map (fun p => if p.1 = k then (p.1, f p.2) else p)

/-! ## Errors raised by the Python code -/

/-- Exceptions the embedded fragments can raise. -/
inductive PErr : Type where
  /-- `ValueError` from tuple-unpacking a split that did not give two
  parts. -/
  | unpackErr : PErr
  /-- `ValueError` from `np.ndarray.reshape` on an incompatible size. -/
  | reshapeErr : PErr
  /-- `IndexError` from `key.split('.')[1]` on a key without a dot. -/
  | indexErr : PErr
  /-- `ValueError` from `float(...)` on a non-numeric token. -/
  | floatErr : PErr
  /-- `KeyError` from a missing dict key. -/
  | keyErr : PErr
  /-- `RuntimeError('Could not parse the transforms.')`. -/
  | emptyErr : PErr
deriving DecidableEq, Repr

/-! ## Matrices (numpy 4x4 arrays over idealised reals) -/

/-- A numpy 2-D array as a list of rows. -/
abbrev LMat := List (List ℚ)

/-- Rows of four: `reshape(4, 4)` of a flat 16-element vector. -/
def chunk4 : List ℚ → LMat
  | a :: b :: c :: d :: rest => [a, b, c, d] :: chunk4 rest
  | [] => []
  | l => [l]

/-- View a row-list matrix as a Mathlib matrix (out-of-range entries 0). -/
def toMat4 (m : LMat) : Matrix (Fin 4) (Fin 4) ℚ :=
  Matrix.of fun i j => ((m.getD i.val []).getD j.val 0)

/-- Back from a Mathlib matrix to a row list. -/
def ofMat4 (M : Matrix (Fin 4) (Fin 4) ℚ) : LMat :=
  (List.finRange 4).map fun i => (List.finRange 4).map fun j => M i j

/-- `scipy.linalg.inv` on a 4x4 matrix (exact rational inverse via the
adjugate; the Python routine computes the same inverse numerically). -/
def inv4 (m : LMat) : LMat :=
  ofMat4 (((toMat4 m).det)⁻¹ • (toMat4 m).adjugate)

/-- `np.dot` of two 4x4 row-list matrices. -/
def dot4 (a b : LMat) : LMat :=
  a.map fun row =>
    (List.range 4).map fun j =>
      (List.range 4).foldl
        (fun acc k => qAdd acc (qMul (row.getD k 0) ((b.getD k []).getD j 0))) 0

/-- `mne.transforms.apply_trans t pnts`: rotate and translate each
3-point. -/
def applyTrans4 (t : LMat) (pnts : List (List ℚ)) : List (List ℚ) :=
  pnts.map fun p =>
    (List.range 3).map fun i =>
      (List.range 3).foldl
        (fun acc j => qAdd acc (qMul ((t.getD i []).getD j 0) (p.getD j 0)))
        ((t.getD i []).getD 3 0)

/-- Map with the element index, starting at `i`. -/
def mapIdxFrom {α : Type} (f : Nat → α → α) : Nat → List α → List α
  | _, [] => []
  | i, a :: rest => f i a :: mapIdxFrom f (i + 1) rest

/-- `m[:3, 3] *= 1e-3`: scale the translation column (rows 0..2, column 3)
by one thousandth. -/
def scaleTranslation (m : LMat) : LMat :=
  mapIdxFrom
    (fun i row =>
      if i < 3 then mapIdxFrom (fun j x => if j = 3 then qMul x (mkRat 1 1000) else x) 0 row
      else row)
    0 m

/-! ## `_parse_trans` (read.py lines 24-28) -/

/-- `_parse_trans`: delete newlines, strip `[`, `]` and spaces from both
ends, split on single spaces, convert every token with `float`, and
reshape to 4x4 (so exactly 16 tokens are required). -/
def parseTransMat (s : String) : Except PErr LMat :=
  let toks := pySplit " " (pyStrip "[] ".data (pyReplace s "\n" ""))
  match toks.mapM parseFloatQ with
  | none => .error .floatErr
  | some qs => if qs.length = 16 then .ok (chunk4 qs) else .error .reshapeErr

/-! ## `_parse_hcp_trans` (read.py lines 31-43) -/

/-- One iteration of the `for trans in contents.split(';')` loop of
`_parse_hcp_trans`: skip fragments containing `"filename"` and the lone
`"\n"` fragment; otherwise unpack on `" = "`, `lstrip` the character set
`"\ntransform."` off the key, parse the matrix, store it, and rescale its
translation column in place when `convert_to_meter` is set. -/
def stepTrans (convert : Bool) (st : List (String × LMat)) (frag : String) :
    Except PErr (List (String × LMat)) :=
  if strHasSub "filename" frag || frag = "\n" then .ok st
  else
    match pySplit " = " frag with
    | [key0, rawv] => do
      let key := pyLstrip "\ntransform.".data key0
      let m ← parseTransMat rawv
      let st1 := dictInsert st key m
      let st2 := if convert then dictUpdate st1 key scaleTranslation else st1
      .ok st2
    | _ => .error .unpackErr

/-- `_parse_hcp_trans` run on the full file contents, starting from the
empty dict (as `read_trans_hcp` and `extract_anatomy` do): fold the
statement loop, then raise `RuntimeError` if no transform was parsed. -/
def parseHcpTrans (convert : Bool) (contents : String) :
    Except PErr (List (String × LMat)) := do
  let t ← (pySplit ";" contents).foldlM (stepTrans convert) []
  if t.isEmpty then .error .emptyErr else .ok t

/-! ## `_get_head_model` (read.py lines 76-85)

The matlab container navigation (`headmodel.bnd[0][0]` sub-arrays) is the
out-of-scope binary reader; the function below starts from the extracted
`pnts` and `faces` arrays, exactly as the Python does after `loadmat`. -/

/-- `_get_head_model`: subtract 1 from every face index, then map the
points through `inv(ras_trans) . hcp_trans['bti2spm']`. -/
def getHeadModel (hcpTrans : List (String × LMat)) (rasTrans : LMat)
    (pnts : List (List ℚ)) (faces : List (List Int)) :
    Except PErr (List (List ℚ) × List (List Int)) :=
  let faces2 := faces.map fun r => r.map (fun x => x - 1)
  match dictFind hcpTrans "bti2spm" with
  | none => .error .keyErr
  | some b => .ok (applyTrans4 (dot4 (inv4 rasTrans) b) pnts, faces2)

/-! ## `extract_anatomy` (read.py lines 88-189), control-flow embedding

Only the archive-presence branching and the error behaviour matter to the
claims; file writes are abstracted to flags and the matrices are elided.
Two facts of the source are embedded faithfully: the statements at lines
141 and 189 construct a `ValueError` but do NOT `raise` it, and with the
extended-structural record absent the later reference to `ras_trans`
(line 163) hits an undefined local name. -/

/-- Observable outcome of one `extract_anatomy` call. -/
structure ExtractOutcome : Type where
  /-- Message of the exception that propagated out, if any. -/
  raised : Option String
  /-- Messages of exception values that were constructed but never
  raised (the bare `ValueError(...)` statements at lines 141 and 189). -/
  unraised : List String
  /-- Whether `write_surface` ran. -/
  wroteSurface : Bool
  /-- Whether `write_trans` ran. -/
  wroteTrans : Bool
deriving DecidableEq, Repr

/-- The `records.get('meg-anatomy')` half of `extract_anatomy`
(lines 143-189). `rasDefined` records whether the local `ras_trans` was
bound by the first half. -/
def megAnatomyPart (subject : String) (rasDefined : Bool)
    (unraised0 : List String) (hasMeg : Bool) : ExtractOutcome :=
  if hasMeg then
    if rasDefined then
      { raised := none, unraised := unraised0
        wroteSurface := true, wroteTrans := true }
    else
      -- line 163 references the never-assigned local `ras_trans`
      { raised := some "NameError: ras_trans", unraised := unraised0
        wroteSurface := false, wroteTrans := false }
  else
    -- line 189: `ValueError('Could not find MEG anatomy for %s' % subject)`
    -- is evaluated and discarded; nothing is raised.
    { raised := none
      unraised := unraised0 ++ ["Could not find MEG anatomy for " ++ subject]
      wroteSurface := false, wroteTrans := false }

/-- `extract_anatomy` given which records exist for the subject:
`has3t` is presence of the `'3t-structural-preproc-extended'` record,
`hasCras` whether the archive holds a `c_ras.mat` entry, `hasMeg`
presence of the `'meg-anatomy'` record. -/
def extractAnatomyFlow (subject : String) (has3t hasCras hasMeg : Bool) :
    ExtractOutcome :=
  if has3t then
    if hasCras then megAnatomyPart subject true [] hasMeg
    else
      -- lines 131-134: an actual `raise` (note the missing space in the
      -- message, from the adjacent string literals in the source)
      { raised := some ("Could not find the Freesurfer RAS transform for" ++
          "subject " ++ subject)
        unraised := [], wroteSurface := false, wroteTrans := false }
  else
    -- line 141: `ValueError('Could not find extended anatomy for %s' %
    -- subject)` is evaluated and discarded; execution falls through.
    megAnatomyPart subject false
      ["Could not find extended anatomy for " ++ subject] hasMeg

/-! ## `_parse_annotations_segments` (read.py lines 351-364) -/

/-- The integers a bad-segments statement value contributes: whitespace
split of the raw value, keeping the all-digit tokens. -/
def segmentInts (rest : String) : List Int :=
  ((pySplitWs rest).filter pyIsDigitStr).map digitToInt

/-- Rows of two: the flattening step of `reshape(-1, 2)`. -/
def chunk2 : List Int → List (List Int)
  | a :: b :: rest => [a, b] :: chunk2 rest
  | [] => []
  | l => [l]

/-- Value computation of one bad-segments statement:
`np.array([...], dtype=int).reshape(-1, 2) - 1`, which demands an even
number of parsed integers. -/
def segmentVal (rest : String) : Except PErr (List (List Int)) :=
  let vals := segmentInts rest
  if vals.length % 2 = 0 then
    .ok ((chunk2 vals).map fun r => r.map (fun x => x - 1))
  else .error .reshapeErr

/-- One iteration of the statement loop of `_parse_annotations_segments`:
skip fragments of length 1 and the fragment `"\n"`; otherwise unpack on
`" = "`, build the corrected pair array, and store it under the second
dot-segment of the key. -/
def stepSegments (st : List (String × List (List Int))) (entry : String) :
    Except PErr (List (String × List (List Int))) :=
  if entry.length = 1 || entry = "\n" then .ok st
  else
    match pySplit " = " entry with
    | [key, rest] => do
      let v ← segmentVal rest
      match pySplit "." key with
      | _ :: k :: _ => .ok (dictInsert st k v)
      | _ => .error .indexErr
    | _ => .error .unpackErr

/-- `_parse_annotations_segments` on the full file contents. -/
def parseAnnotationsSegments (s : String) :
    Except PErr (List (String × List (List Int))) :=
  (pySplit ";" s).foldlM stepSegments []

/-! ## `_parse_annotations_bad_channels` (read.py lines 438-448) -/

/-- One iteration of the statement loop of
`_parse_annotations_bad_channels`: the value is the quote-split of the
raw value filtered to alphanumeric tokens. -/
def stepBadChannels (st : List (String × List String)) (entry : String) :
    Except PErr (List (String × List String)) :=
  if entry.length = 1 || entry = "\n" then .ok st
  else
    match pySplit " = " entry with
    | [key, rest] =>
      let v := (pySplit "'" rest).filter pyIsAlnumStr
      match pySplit "." key with
      | _ :: k :: _ => .ok (dictInsert st k v)
      | _ => .error .indexErr
    | _ => .error .unpackErr

/-- `_parse_annotations_bad_channels` on the full file contents. -/
def parseAnnotationsBadChannels (s : String) :
    Except PErr (List (String × List String)) :=
  (pySplit ";" s).foldlM stepBadChannels []

/-! ## `_parse_annotations_ica` (read.py lines 451-466) -/

/-- An element of an ICA classification list: a component index or a
label. -/
inductive IcaTok : Type where
  /-- an integer component index -/
  | iv : Int → IcaTok
  /-- a string label -/
  | sv : String → IcaTok
deriving DecidableEq, Repr

/-- One iteration of the statement loop of `_parse_annotations_ica`:
choose the separator by presence of `[` in the raw value, split, keep
alphanumeric tokens, and coerce the all-digit ones to integers. -/
def stepIca (st : List (String × List IcaTok)) (entry : String) :
    Except PErr (List (String × List IcaTok)) :=
  if entry.length = 1 || entry = "\n" then .ok st
  else
    match pySplit " = " entry with
    | [key, rest] =>
      let sep := if strHasSub "[" rest then " " else "'"
      let v := ((pySplit sep rest).filter pyIsAlnumStr).map fun ch =>
        if pyIsDigitStr ch then IcaTok.iv (digitToInt ch) else IcaTok.sv ch
      match pySplit "." key with
      | _ :: k :: _ => .ok (dictInsert st k v)
      | _ => .error .indexErr
    | _ => .error .unpackErr

/-- `_parse_annotations_ica` on the full file contents. -/
def parseAnnotationsIca (s : String) :
    Except PErr (List (String × List IcaTok)) :=
  (pySplit ";" s).foldlM stepIca []

/-! ## The transform-composition tail of `extract_anatomy`
(read.py lines 172-181) -/

/-- Lines 172-181 of `extract_anatomy`: copy and invert the RAS matrix,
rescale its translation in place, alias `bti2spm` to the TABLE ENTRY and
rescale that array in place (so the table now holds the rescaled matrix),
and compose `head_mri_t = np.dot(ras_trans_m, bti2spm)`.  Returns the
composed matrix together with the table as it stands after the
statements. -/
def anatomyCombine (rasTrans : LMat) (hcpTrans : List (String × LMat)) :
    Except PErr (LMat × List (String × LMat)) :=
  let rasM := scaleTranslation (inv4 rasTrans)
  match dictFind hcpTrans "bti2spm" with
  | none => .error .keyErr
  | some b0 =>
    let b := scaleTranslation b0
    let hcpTrans2 := dictInsert hcpTrans "bti2spm" b
    .ok (dot4 rasM b, hcpTrans2)

/-! ## Helper lemmas -/

theorem chunk2_flatten_map (f : Int → Int) :
    ∀ l : List Int, ((chunk2 l).map (List.map f)).flatten = l.map f
  | [] => rfl
  | [a] => rfl
  | a :: b :: rest => by
    simp only [chunk2, List.map_cons, List.flatten_cons,
      chunk2_flatten_map f rest]
    rfl

theorem mem_chunk2 :
    ∀ (l r : List Int), r ∈ chunk2 l → ∀ x ∈ r, x ∈ l
  | [], r, hr => by simp [chunk2] at hr
  | [a], r, hr => by
    simp only [chunk2, List.mem_singleton] at hr
    subst hr; intro x hx; exact hx
  | a :: b :: rest, r, hr => by
    simp only [chunk2, List.mem_cons] at hr
    rcases hr with h | h
    · subst h
      intro x hx
      simp only [List.mem_cons] at hx ⊢
      tauto
    · intro x hx
      have := mem_chunk2 rest r h x hx
      simp only [List.mem_cons]
      tauto

theorem dictFind_dictInsert_self {α : Type} :
    ∀ (d : List (String × α)) (k : String) (v : α),
      dictFind (dictInsert d k v) k = some v
  | [], k, v => by simp [dictInsert, dictFind]
  | (k', v') :: rest, k, v => by
    by_cases h : k' = k
    · simp [dictInsert, dictFind, h]
    · simp [dictInsert, dictFind, h, dictFind_dictInsert_self rest k v]

theorem dictFind_dictInsert_ne {α : Type} :
    ∀ (d : List (String × α)) (k k' : String) (v : α), k' ≠ k →
      dictFind (dictInsert d k v) k' = dictFind d k'
  | [], k, k', v, h => by
    simp only [dictInsert, dictFind, if_neg (Ne.symm h)]
  | (a, b) :: rest, k, k', v, h => by
    by_cases ha : a = k
    · subst ha
      simp only [dictInsert, if_pos rfl, dictFind, if_neg (Ne.symm h)]
    · by_cases ha' : a = k'
      · subst ha'
        simp [dictInsert, dictFind, ha]
      · simp only [dictInsert, if_neg ha, dictFind, if_neg ha',
          dictFind_dictInsert_ne rest k k' v h]

/-! ## Claims -/

/-- Claim C1: the spec's Scenario 3 says the bad-segments parser maps
`"badsegments.badsegment = [1 10; 20 30];"` to
`{"badsegment": [[0,9],[19,29]]}`, treating the `;` inside the bracketed
literal as part of the literal.  The code instead splits naively on every
`;`, so the first fragment keeps only the single integer `10` and the
`reshape(-1, 2)` of one element raises `ValueError`: the parser crashes
on this input rather than producing the mapping. -/
theorem claim_C1_segments_embedded_semicolon :
    parseAnnotationsSegments "badsegments.badsegment = [1 10; 20 30];" =
      Except.error PErr.reshapeErr ∧
    parseAnnotationsSegments "badsegments.badsegment = [1 10; 20 30];" ≠
      Except.ok [("badsegment", [[0, 9], [19, 29]])] ∧
    (pySplit ";" "badsegments.badsegment = [1 10; 20 30];").length = 3 := by
  decide

/-- Claim C2: the spec says a subject lacking the extended-structural or
the MEG-anatomy archive fails with a raised `MissingArtifact` error naming
the subject.  In the code the two `ValueError(...)` expressions at lines
141 and 189 are never raised: with the MEG-anatomy record absent the call
completes with no exception (the message is only constructed and
discarded), and with the extended-structural record absent execution
continues into the MEG-anatomy branch. -/
theorem claim_C2_missing_archive_not_raised :
    extractAnatomyFlow "CP10101" true true false =
      { raised := none
        unraised := ["Could not find MEG anatomy for CP10101"]
        wroteSurface := false, wroteTrans := false } ∧
    extractAnatomyFlow "CP10101" false true false =
      { raised := none
        unraised := ["Could not find extended anatomy for CP10101",
          "Could not find MEG anatomy for CP10101"]
        wroteSurface := false, wroteTrans := false } ∧
    (extractAnatomyFlow "CP10101" false true true).raised =
      some "NameError: ras_trans" := by
  decide

/-- Claim C3: the spec says the key stored in the transform table is
exactly the final dotted segment of the key path, for every name
including `spm2mri`.  The code computes the key with
`lstrip('\ntransform.')`, which strips a character SET, so for
`transform.spm2mri` the leading `s` of the name is also stripped and the
stored key is `"pm2mri"`. -/
theorem claim_C3_lstrip_eats_key :
    pyLstrip "\ntransform.".data "transform.spm2mri" = "pm2mri" ∧
    (parseHcpTrans false
        "transform.spm2mri = [1 0 0 0 0 1 0 0 0 0 1 0 0 0 0 1];\n").toOption.map
      (fun t => t.map Prod.fst) = some ["pm2mri"] := by
  decide

/-- Claim C4 counterexample: the claim says every fragment that cannot be
split on `" = "` is skipped without error.  On
`"bads.all = ['A1'];junk"` the fragment `"junk"` has length 4, is not
skipped, and the two-variable unpacking of its `split(' = ')` raises
`ValueError`, so the parser does not return the mapping built from the
remaining well-formed statement. -/
theorem claim_C4_counterexample :
    parseAnnotationsBadChannels "bads.all = ['A1'];junk" =
      Except.error PErr.unpackErr ∧
    parseAnnotationsBadChannels "bads.all = ['A1'];junk" ≠
      Except.ok [("all", ["A1"])] := by
  decide

/-- Claim C4 amended: in all three annotation parsers, a fragment is
skipped exactly when its length is 1 (in particular a lone `"\n"`): such
a fragment leaves the accumulated mapping unchanged, raises no error, and
the fold over the remaining fragments proceeds as if it were absent.
Every fragment of any other length whose `" = "` split does not give
exactly two parts raises the unpacking `ValueError` in each of the three
step functions, and that error aborts the whole parse no matter what
fragments follow. -/
theorem claim_C4_amended (st1 : List (String × List (List Int)))
    (st2 : List (String × List String)) (st3 : List (String × List IcaTok))
    (entry : String) (rest : List String) :
    (entry.length = 1 →
      stepSegments st1 entry = Except.ok st1 ∧
      stepBadChannels st2 entry = Except.ok st2 ∧
      stepIca st3 entry = Except.ok st3 ∧
      List.foldlM stepSegments st1 (entry :: rest) =
        List.foldlM stepSegments st1 rest ∧
      List.foldlM stepBadChannels st2 (entry :: rest) =
        List.foldlM stepBadChannels st2 rest ∧
      List.foldlM stepIca st3 (entry :: rest) =
        List.foldlM stepIca st3 rest) ∧
    (entry.length ≠ 1 → (pySplit " = " entry).length ≠ 2 →
      stepSegments st1 entry = Except.error PErr.unpackErr ∧
      stepBadChannels st2 entry = Except.error PErr.unpackErr ∧
      stepIca st3 entry = Except.error PErr.unpackErr ∧
      List.foldlM stepSegments st1 (entry :: rest) =
        Except.error PErr.unpackErr ∧
      List.foldlM stepBadChannels st2 (entry :: rest) =
        Except.error PErr.unpackErr ∧
      List.foldlM stepIca st3 (entry :: rest) =
        Except.error PErr.unpackErr) := by
  constructor
  · intro h1
    have e1 : stepSegments st1 entry = Except.ok st1 := by
      unfold stepSegments; simp [h1]
    have e2 : stepBadChannels st2 entry = Except.ok st2 := by
      unfold stepBadChannels; simp [h1]
    have e3 : stepIca st3 entry = Except.ok st3 := by
      unfold stepIca; simp [h1]
    refine ⟨e1, e2, e3, ?_, ?_, ?_⟩
    · simp only [List.foldlM_cons, e1]; rfl
    · simp only [List.foldlM_cons, e2]; rfl
    · simp only [List.foldlM_cons, e3]; rfl
  · intro h1 h2
    have hne : entry ≠ "\n" := fun he => h1 (by rw [he]; rfl)
    have e1 : stepSegments st1 entry = Except.error PErr.unpackErr := by
      unfold stepSegments
      rcases hp : pySplit " = " entry with _ | ⟨a, _ | ⟨b, _ | ⟨c, tl⟩⟩⟩
      · simp [h1, hne, hp]
      · simp [h1, hne, hp]
      · rw [hp] at h2; exact absurd rfl h2
      · simp [h1, hne, hp]
    have e2 : stepBadChannels st2 entry = Except.error PErr.unpackErr := by
      unfold stepBadChannels
      rcases hp : pySplit " = " entry with _ | ⟨a, _ | ⟨b, _ | ⟨c, tl⟩⟩⟩
      · simp [h1, hne, hp]
      · simp [h1, hne, hp]
      · rw [hp] at h2; exact absurd rfl h2
      · simp [h1, hne, hp]
    have e3 : stepIca st3 entry = Except.error PErr.unpackErr := by
      unfold stepIca
      rcases hp : pySplit " = " entry with _ | ⟨a, _ | ⟨b, _ | ⟨c, tl⟩⟩⟩
      · simp [h1, hne, hp]
      · simp [h1, hne, hp]
      · rw [hp] at h2; exact absurd rfl h2
      · simp [h1, hne, hp]
    refine ⟨e1, e2, e3, ?_, ?_, ?_⟩
    · simp only [List.foldlM_cons, e1]; rfl
    · simp only [List.foldlM_cons, e2]; rfl
    · simp only [List.foldlM_cons, e3]; rfl

theorem claim_C4_witness :
    (("\n" : String).length = 1 ∧
      (stepSegments [] "\n" = Except.ok [] ∧
        stepBadChannels [] "\n" = Except.ok [] ∧
        stepIca [] "\n" = Except.ok [] ∧
        List.foldlM stepSegments [] ["\n"] = List.foldlM stepSegments [] [] ∧
        List.foldlM stepBadChannels [] ["\n"] =
          List.foldlM stepBadChannels [] [] ∧
        List.foldlM stepIca [] ["\n"] = List.foldlM stepIca [] [])) ∧
    (("junk" : String).length ≠ 1 ∧ (pySplit " = " "junk").length ≠ 2 ∧
      (stepSegments [] "junk" = Except.error PErr.unpackErr ∧
        stepBadChannels [] "junk" = Except.error PErr.unpackErr ∧
        stepIca [] "junk" = Except.error PErr.unpackErr ∧
        List.foldlM stepSegments [] ["junk"] = Except.error PErr.unpackErr ∧
        List.foldlM stepBadChannels [] ["junk"] =
          Except.error PErr.unpackErr ∧
        List.foldlM stepIca [] ["junk"] = Except.error PErr.unpackErr)) :=
  ⟨⟨by decide, (claim_C4_amended [] [] [] "\n" []).1 (by decide)⟩,
    ⟨by decide, by decide,
      (claim_C4_amended [] [] [] "junk" []).2 (by decide) (by decide)⟩⟩

/-- Claim C5 counterexample: the spec's Scenario 1 input has bare line
breaks between matrix rows.  `_parse_trans` deletes newlines (it does not
replace them with spaces), so `10\n0` fuses to `100` and the token list
has 13 elements, not 16; `reshape(4, 4)` raises and the parse fails
instead of producing the claimed table. -/
theorem claim_C5_counterexample :
    parseHcpTrans true
      "transform.bti2spm = [1 0 0 10\n0 1 0 20\n0 0 1 30\n0 0 0 1];" =
      Except.error PErr.reshapeErr ∧
    (pySplit " " (pyStrip "[] ".data
        (pyReplace "[1 0 0 10\n0 1 0 20\n0 0 1 30\n0 0 0 1]" "\n" ""))).length
      = 13 := by
  decide

/-- Claim C5 amended: with a space before each line break (the layout the
deleting `replace` presupposes) and a trailing newline after the `;`, the
parse with `convert_to_meter` succeeds and the `bti2spm` entry is the
4x4 matrix with translation column `[1/100, 1/50, 3/100]`, i.e.
`[0.01, 0.02, 0.03]`. -/
theorem claim_C5_amended :
    parseHcpTrans true
      "transform.bti2spm = [1 0 0 10 \n0 1 0 20 \n0 0 1 30 \n0 0 0 1];\n" =
      Except.ok [("bti2spm",
        [[1, 0, 0, mkRat 1 100], [0, 1, 0, mkRat 1 50],
         [0, 0, 1, mkRat 3 100], [0, 0, 0, 1]])] ∧
    mkRat 1 100 = 1 / 100 ∧ mkRat 1 50 = 2 / 100 ∧ mkRat 3 100 = 3 / 100 := by
  refine ⟨by decide, ?_, ?_, ?_⟩ <;> norm_num [Rat.mkRat_eq_div]

/-- Claim C6 counterexample: on empty input the bad-channels parser does
not return the empty mapping (it raises), and the transform parser's
failure is not the zero-transforms `RuntimeError`. -/
theorem claim_C6_counterexample :
    parseAnnotationsBadChannels "" ≠ Except.ok [] ∧
    parseHcpTrans true "" ≠ Except.error PErr.emptyErr := by
  decide

/-- Claim C6 amended: splitting the empty string on `;` yields the single
fragment `""`, which none of the parsers skip (its length is 0, not 1),
so on empty input the transform parser and all three annotation parsers
raise the unpacking `ValueError`; the transform parser's zero-transforms
`RuntimeError` is never reached. -/
theorem claim_C6_amended :
    parseHcpTrans true "" = Except.error PErr.unpackErr ∧
    parseHcpTrans false "" = Except.error PErr.unpackErr ∧
    parseAnnotationsSegments "" = Except.error PErr.unpackErr ∧
    parseAnnotationsBadChannels "" = Except.error PErr.unpackErr ∧
    parseAnnotationsIca "" = Except.error PErr.unpackErr :=
  ⟨by decide, by decide, by decide, by decide, by decide⟩

/-- Claim C7 counterexample: on `"icaclass.brain = [1 2 3];"` the ICA
parser raises (the trailing empty fragment cannot be unpacked); moreover
the statement itself yields `{"brain": [2]}` because the space-split
tokens `"[1"` and `"3]"` fail `isalnum` and are dropped, so the listed
component indices 1 and 3 are lost, contradicting the claimed
`{"brain": [1, 2, 3]}`. -/
theorem claim_C7_counterexample :
    parseAnnotationsIca "icaclass.brain = [1 2 3];" =
      Except.error PErr.unpackErr ∧
    stepIca [] "icaclass.brain = [1 2 3]" =
      Except.ok [("brain", [IcaTok.iv 2])] ∧
    parseAnnotationsIca "icaclass.brain = [1 2 3];" ≠
      Except.ok [("brain", [IcaTok.iv 1, IcaTok.iv 2, IcaTok.iv 3])] := by
  decide

/-- Claim C7 amended: when the brackets are separated from the digits by
spaces and the statement ends with `";\n"` (so the final fragment is the
skippable `"\n"`), the ICA parser returns `{"brain": [1, 2, 3]}` with all
three all-digit tokens coerced to integers. -/
theorem claim_C7_amended :
    parseAnnotationsIca "icaclass.brain = [ 1 2 3 ];\n" =
      Except.ok [("brain", [IcaTok.iv 1, IcaTok.iv 2, IcaTok.iv 3])] := by
  decide

/-- Claim C8: every bad-segment boundary and every mesh-face index the
parsers output equals the corresponding 1-based source value minus 1, and
under the precondition that every source value is at least 1 every output
value is nonnegative.  For segments the source values are the parsed
digit tokens (`segmentInts`); for the head model they are the entries of
the `faces` array. -/
theorem claim_C8_index_correction (rest : String) (out : List (List Int))
    (hseg : segmentVal rest = Except.ok out)
    (hpos : ∀ x ∈ segmentInts rest, 1 ≤ x)
    (tbl : List (String × LMat)) (ras : LMat) (pnts : List (List ℚ))
    (faces : List (List Int)) (hm : List (List ℚ) × List (List Int))
    (hhm : getHeadModel tbl ras pnts faces = Except.ok hm)
    (hfpos : ∀ r ∈ faces, ∀ x ∈ r, 1 ≤ x) :
    out.flatten = (segmentInts rest).map (fun x => x - 1) ∧
    (∀ r ∈ out, ∀ y ∈ r, 0 ≤ y) ∧
    hm.2 = faces.map (fun r => r.map (fun x => x - 1)) ∧
    (∀ r ∈ hm.2, ∀ y ∈ r, 0 ≤ y) := by
  have hout : out =
      (chunk2 (segmentInts rest)).map (fun r => r.map (fun x => x - 1)) := by
    simp only [segmentVal] at hseg
    split at hseg
    · exact ((Except.ok.injEq _ _).mp hseg).symm
    · simp at hseg
  have hm2 : hm.2 = faces.map (fun r => r.map (fun x => x - 1)) := by
    rcases hdf : dictFind tbl "bti2spm" with _ | b <;>
      simp only [getHeadModel, hdf] at hhm
    · simp at hhm
    · rw [← ((Except.ok.injEq _ _).mp hhm)]
  refine ⟨?_, ?_, hm2, ?_⟩
  · rw [hout, chunk2_flatten_map]
  · intro r hr y hy
    rw [hout] at hr
    rcases List.mem_map.mp hr with ⟨r0, hr0, rfl⟩
    rcases List.mem_map.mp hy with ⟨x, hx, rfl⟩
    have := hpos x (mem_chunk2 _ r0 hr0 x hx)
    omega
  · intro r hr y hy
    rw [hm2] at hr
    rcases List.mem_map.mp hr with ⟨r0, hr0, rfl⟩
    rcases List.mem_map.mp hy with ⟨x, hx, rfl⟩
    have := hfpos r0 hr0 x hx
    omega

theorem claim_C8_witness :
    segmentVal "1 10 20 30" = Except.ok [[0, 9], [19, 29]] ∧
    (([[0, 9], [19, 29]] : List (List Int)).flatten =
        (segmentInts "1 10 20 30").map (fun x => x - 1) ∧
      (∀ r ∈ ([[0, 9], [19, 29]] : List (List Int)), ∀ y ∈ r, 0 ≤ y) ∧
      (([], [[0, 1, 2]]) : List (List ℚ) × List (List Int)).2 =
        ([[1, 2, 3]] : List (List Int)).map (fun r => r.map (fun x => x - 1)) ∧
      (∀ r ∈ (([], [[0, 1, 2]]) : List (List ℚ) × List (List Int)).2,
        ∀ y ∈ r, 0 ≤ y)) :=
  ⟨by decide,
    claim_C8_index_correction "1 10 20 30" [[0, 9], [19, 29]] (by decide)
      (by decide)
      [("bti2spm", [[1, 0, 0, 0], [0, 1, 0, 0], [0, 0, 1, 0], [0, 0, 0, 1]])]
      [[1, 0, 0, 0], [0, 1, 0, 0], [0, 0, 1, 0], [0, 0, 0, 1]] []
      [[1, 2, 3]] ([], [[0, 1, 2]]) (by decide) (by decide)⟩

/-- Claim C9 counterexample: the claim says no later operation modifies a
matrix stored in the transform table.  Running the composition tail of
`extract_anatomy` on a table whose `bti2spm` entry has translation
`[10, 20, 30]` leaves the table CHANGED: the in-place
`bti2spm[:3, 3] *= 1e-3` rescales the stored array through the alias. -/
theorem claim_C9_counterexample :
    (anatomyCombine [[1, 0, 0, 0], [0, 1, 0, 0], [0, 0, 1, 0], [0, 0, 0, 1]]
        [("bti2spm",
          [[1, 0, 0, 10], [0, 1, 0, 20], [0, 0, 1, 30],
           [0, 0, 0, 1]])]).toOption.map Prod.snd ≠
      some [("bti2spm",
        [[1, 0, 0, 10], [0, 1, 0, 20], [0, 0, 1, 30], [0, 0, 0, 1]])] := by
  decide

/-- Claim C9 amended: the composed transform is a fresh derived value
(the product of the rescaled inverse RAS matrix and the rescaled
`bti2spm`), and entries other than `bti2spm` are untouched, but the
table's own `bti2spm` entry IS mutated in place: afterwards the table
holds `scaleTranslation b0` (its translation column multiplied by 1e-3)
in place of the original `b0`. -/
theorem claim_C9_amended (ras : LMat) (tbl : List (String × LMat)) (b0 : LMat)
    (k : String) (hfind : dictFind tbl "bti2spm" = some b0) :
    (anatomyCombine ras tbl).toOption.map Prod.snd =
      some (dictInsert tbl "bti2spm" (scaleTranslation b0)) ∧
    (anatomyCombine ras tbl).toOption.map Prod.fst =
      some (dot4 (scaleTranslation (inv4 ras)) (scaleTranslation b0)) ∧
    dictFind (dictInsert tbl "bti2spm" (scaleTranslation b0)) "bti2spm" =
      some (scaleTranslation b0) ∧
    (k ≠ "bti2spm" →
      dictFind (dictInsert tbl "bti2spm" (scaleTranslation b0)) k =
        dictFind tbl k) := by
  refine ⟨?_, ?_, dictFind_dictInsert_self tbl _ _,
    fun hk => dictFind_dictInsert_ne tbl _ k _ hk⟩ <;>
  · simp [anatomyCombine, hfind, Except.toOption]

theorem claim_C9_witness :
    dictFind
        [("bti2spm",
          [[1, 0, 0, 10], [0, 1, 0, 20], [0, 0, 1, 30], [0, 0, 0, 1]])]
        "bti2spm" =
      some [[1, 0, 0, 10], [0, 1, 0, 20], [0, 0, 1, 30], [0, 0, 0, 1]] ∧
    ((anatomyCombine
          [[1, 0, 0, 0], [0, 1, 0, 0], [0, 0, 1, 0], [0, 0, 0, 1]]
          [("bti2spm",
            [[1, 0, 0, 10], [0, 1, 0, 20], [0, 0, 1, 30],
             [0, 0, 0, 1]])]).toOption.map Prod.snd =
        some (dictInsert
          [("bti2spm",
            [[1, 0, 0, 10], [0, 1, 0, 20], [0, 0, 1, 30], [0, 0, 0, 1]])]
          "bti2spm"
          (scaleTranslation
            [[1, 0, 0, 10], [0, 1, 0, 20], [0, 0, 1, 30], [0, 0, 0, 1]])) ∧
      (anatomyCombine
          [[1, 0, 0, 0], [0, 1, 0, 0], [0, 0, 1, 0], [0, 0, 0, 1]]
          [("bti2spm",
            [[1, 0, 0, 10], [0, 1, 0, 20], [0, 0, 1, 30],
             [0, 0, 0, 1]])]).toOption.map Prod.fst =
        some (dot4
          (scaleTranslation (inv4
            [[1, 0, 0, 0], [0, 1, 0, 0], [0, 0, 1, 0], [0, 0, 0, 1]]))
          (scaleTranslation
            [[1, 0, 0, 10], [0, 1, 0, 20], [0, 0, 1, 30], [0, 0, 0, 1]])) ∧
      dictFind
          (dictInsert
            [("bti2spm",
              [[1, 0, 0, 10], [0, 1, 0, 20], [0, 0, 1, 30], [0, 0, 0, 1]])]
            "bti2spm"
            (scaleTranslation
              [[1, 0, 0, 10], [0, 1, 0, 20], [0, 0, 1, 30], [0, 0, 0, 1]]))
          "bti2spm" =
        some (scaleTranslation
          [[1, 0, 0, 10], [0, 1, 0, 20], [0, 0, 1, 30], [0, 0, 0, 1]]) ∧
      ("other" ≠ "bti2spm" →
        dictFind
            (dictInsert
              [("bti2spm",
                [[1, 0, 0, 10], [0, 1, 0, 20], [0, 0, 1, 30], [0, 0, 0, 1]])]
              "bti2spm"
              (scaleTranslation
                [[1, 0, 0, 10], [0, 1, 0, 20], [0, 0, 1, 30], [0, 0, 0, 1]]))
            "other" =
          dictFind
            [("bti2spm",
              [[1, 0, 0, 10], [0, 1, 0, 20], [0, 0, 1, 30], [0, 0, 0, 1]])]
            "other")) :=
  ⟨by decide,
    claim_C9_amended
      [[1, 0, 0, 0], [0, 1, 0, 0], [0, 0, 1, 0], [0, 0, 0, 1]]
      [("bti2spm",
        [[1, 0, 0, 10], [0, 1, 0, 20], [0, 0, 1, 30], [0, 0, 0, 1]])]
      [[1, 0, 0, 10], [0, 1, 0, 20], [0, 0, 1, 30], [0, 0, 0, 1]]
      "other" (by decide)⟩

/-- Claim C10: any `;`-delimited fragment of a transform file containing
the substring `"filename"` anywhere is silently skipped: the statement
loop leaves the table unchanged on such a fragment, and folding the loop
over the fragment list gives the same result with or without it, even
when the fragment is an otherwise well-formed `key = value` statement. -/
theorem claim_C10_filename_skipped (convert : Bool)
    (st : List (String × LMat)) (frag : String)
    (h : strHasSub "filename" frag = true) :
    stepTrans convert st frag = Except.ok st ∧
    ∀ rest : List String,
      List.foldlM (stepTrans convert) st (frag :: rest) =
        List.foldlM (stepTrans convert) st rest := by
  have hstep : stepTrans convert st frag = Except.ok st := by
    unfold stepTrans
    simp [h]
  refine ⟨hstep, fun rest => ?_⟩
  simp only [List.foldlM_cons, hstep]
  rfl

theorem claim_C10_witness :
    strHasSub "filename" "transform.filename = 'T1w.nii'" = true ∧
    stepTrans true [] "transform.filename = 'T1w.nii'" = Except.ok [] ∧
    List.foldlM (stepTrans true) [] ["transform.filename = 'T1w.nii'"] =
      List.foldlM (stepTrans true) ([] : List (String × LMat)) [] :=
  ⟨by decide,
    (claim_C10_filename_skipped true [] _ (by decide)).1,
    (claim_C10_filename_skipped true [] _ (by decide)).2 []⟩

end HcpRead
